import Mathlib

/-!
Verification of the crime-prediction service core against its source.

The embedding follows `src/server/features.py` (ZIP normalization, weather
resolution with cache and monthly fallback, feature computation, feature-vector
serialization) and `src/server/app.py` (the `/api/predict` endpoint: model
loading outcome, ensemble aggregation, confidence/category classification,
response assembly).  External collaborators (pgeocode geocoding, Meteostat
daily weather, the process clock) are modelled as an explicit `Oracles` record;
an `Except` result of an oracle stands for a raised exception, `Option` for an
absent value (NaN coordinates, empty frame, missing column).  Machine floats
are modelled as rationals: every numeric literal involved in the claims
(`0.33`, `0.66`, `0.9`, `45`, …) is exactly representable in binary64 or is
only ever compared for strict order, so the rational model agrees with the
float semantics on all statements proved here.
-/

namespace CrimePrediction

/-! ### ZipNormalizer — `features.py`, `_normalize_zip` (lines 37-48)

Python: `z = str(zipcode).strip()`, then `if "." in z: z = z.split(".")[0]`,
then `return z.zfill(5)`.  We model the string as its character list. -/

/-- ASCII whitespace stripped by Python `str.strip()` (the inputs considered
here contain no exotic Unicode whitespace). -/
def isPySpace (c : Char) : Bool :=
  c = ' ' ∨ c = '\t' ∨ c = '\n' ∨ c = '\r' ∨ c = '\x0b' ∨ c = '\x0c'

/-- Python `str.strip()`: drop whitespace from both ends. -/
def pyStrip (l : List Char) : List Char :=
  ((l.dropWhile isPySpace).reverse.dropWhile isPySpace).reverse

/-- Python `z.split(".")[0]`: the longest prefix before the first `'.'`. -/
def splitDotHead (l : List Char) : List Char :=
  l.takeWhile (fun c => c ≠ '.')

/-- Python `str.zfill(w)`: pad with `'0'` on the left to width `w`, keeping a
leading sign character in front of the padding. -/
def zfill (l : List Char) (w : Nat) : List Char :=
  match l with
  | [] => List.replicate w '0'
  | c :: rest =>
    if c = '+' ∨ c = '-' then c :: (List.replicate (w - l.length) '0' ++ rest)
    else List.replicate (w - l.length) '0' ++ l

/-- `features.py` lines 37-48: normalize a ZIP code to a 5-character,
zero-left-padded string.  The caller passes `str(zipcode)`, so an
`int` arrives as its decimal digits and a `float` as digits plus `".0"`. -/
def normalize_zip (z : String) : String :=
  let l := pyStrip z.data
  let l := if l.contains '.' then splitDotHead l else l
  ⟨zfill l 5⟩

/-! ### Dates and times

`pandas.to_datetime` is a collaborator; we model its behaviour on the
canonical formats the service contract uses (`YYYY-MM-DD` and
`YYYY-MM-DD HH:MM:SS`), returning `none` where pandas raises. -/

structure PyDateTime where
  year : Nat
  month : Nat
  day : Nat
  hour : Nat
  minute : Nat
  second : Nat
deriving DecidableEq, Repr

def natOfDigits (l : List Char) : Nat :=
  l.foldl (fun acc c => 10 * acc + (c.toNat - 48)) 0

def isLeapYear (y : Nat) : Bool :=
  y % 4 = 0 ∧ (y % 100 ≠ 0 ∨ y % 400 = 0)

def daysInMonth (y m : Nat) : Nat :=
  if m = 2 then (if isLeapYear y then 29 else 28)
  else if m = 4 ∨ m = 6 ∨ m = 9 ∨ m = 11 then 30
  else 31

def validYmd (y m d : Nat) : Bool :=
  1 ≤ m ∧ m ≤ 12 ∧ 1 ≤ d ∧ d ≤ daysInMonth y m

def validHms (h mi s : Nat) : Bool :=
  h < 24 ∧ mi < 60 ∧ s < 60

/-- Parse `"YYYY-MM-DD"`; `none` models a `pandas.to_datetime` exception. -/
def parseDate (s : String) : Option (Nat × Nat × Nat) :=
  match s.data with
  | [y1, y2, y3, y4, '-', m1, m2, '-', d1, d2] =>
    if ([y1, y2, y3, y4, m1, m2, d1, d2].all Char.isDigit) then
      let y := natOfDigits [y1, y2, y3, y4]
      let m := natOfDigits [m1, m2]
      let d := natOfDigits [d1, d2]
      if validYmd y m d then some (y, m, d) else none
    else none
  | _ => none

/-- Parse `"YYYY-MM-DD HH:MM:SS"`; `none` models a `pandas.to_datetime`
exception (`compute_features` turns it into `ValueError("Invalid datetime")`). -/
def parseDateTime (s : String) : Option PyDateTime :=
  match s.data with
  | [y1, y2, y3, y4, '-', m1, m2, '-', d1, d2, ' ',
     h1, h2, ':', i1, i2, ':', s1, s2] =>
    if ([y1, y2, y3, y4, m1, m2, d1, d2, h1, h2, i1, i2, s1, s2].all Char.isDigit) then
      let y := natOfDigits [y1, y2, y3, y4]
      let m := natOfDigits [m1, m2]
      let d := natOfDigits [d1, d2]
      let h := natOfDigits [h1, h2]
      let mi := natOfDigits [i1, i2]
      let se := natOfDigits [s1, s2]
      if validYmd y m d ∧ validHms h mi se then
        some ⟨y, m, d, h, mi, se⟩
      else none
    else none
  | _ => none

/-- Sakamoto's day-of-week (0 = Sunday) for the Gregorian calendar. -/
def sakamotoDow (y m d : Nat) : Nat :=
  let t := [0, 3, 2, 5, 0, 3, 5, 1, 4, 6, 2, 4]
  let y := if m < 3 then y - 1 else y
  (y + y / 4 - y / 100 + y / 400 + t.getD (m - 1) 0 + d) % 7

/-- `pandas.Timestamp.dayofweek`: Monday = 0 … Sunday = 6. -/
def dayOfWeekMon (y m d : Nat) : Nat :=
  (sakamotoDow y m d + 6) % 7

/-! ### WeatherResolver — `features.py`, `_get_weather_data` (lines 321-387)

External collaborators.  `geocode` models `nomi.query_postal_code` (an
`Except` value is a raised exception, `none` stands for NaN coordinates);
`daily` models `Daily(point, start, end).fetch()` plus the per-column reads
(`none` is an empty frame; a `DailyRow` field is `none` when the column is
absent, so reading it raises `KeyError` in unguarded code); `today` models
`datetime.now().strftime("%Y-%m-%d")`. -/

structure DailyRow where
  tavg? : Option ℚ
  prcp? : Option ℚ
deriving DecidableEq, Repr

structure Oracles where
  geocode : String → Except String (Option (ℚ × ℚ))
  daily : (ℚ × ℚ) → String → Except String (Option DailyRow)
  today : String

/-- Cache key: `(zipcode, date_str or month)` — Python `or` takes the month
when `date_str` is `None` **or** the empty string. -/
abbrev CacheKey := String × (String ⊕ Nat)

abbrev WeatherCache := List (CacheKey × (ℚ × ℚ))

def cacheLookup : WeatherCache → CacheKey → Option (ℚ × ℚ)
  | [], _ => none
  | (k, v) :: rest, key => if k = key then some v else cacheLookup rest key

/-- `WEATHER_FALLBACK` — `features.py` lines 107-120. -/
def WEATHER_FALLBACK : List (Nat × (ℚ × ℚ)) :=
  [(1, (32, 8/10)), (2, (35, 7/10)), (3, (45, 1)), (4, (60, 12/10)),
   (5, (70, 13/10)), (6, (80, 14/10)), (7, (85, 15/10)), (8, (83, 14/10)),
   (9, (75, 13/10)), (10, (60, 1)), (11, (45, 9/10)), (12, (35, 8/10))]

def fallbackLookup : List (Nat × (ℚ × ℚ)) → Nat → Option (ℚ × ℚ)
  | [], _ => none
  | (k, v) :: rest, m => if k = m then some v else fallbackLookup rest m

/-- `_get_weather_fallback` — `features.py` lines 384-387:
`WEATHER_FALLBACK.get(month, {"tavg": 60, "prcp": 1.0})`. -/
def get_weather_fallback (month : Nat) : ℚ × ℚ :=
  (fallbackLookup WEATHER_FALLBACK month).getD (60, 1)

/-- Counts of external invocations performed: `(geocode calls, daily calls)`.
Not part of the Python state — instrumentation making "the external source was
(not) invoked" a provable statement. -/
abbrev Counts := Nat × Nat

/-- The `try:` body of `_get_weather_data` (lines 334-382).  Every failure
path — parse exception, geocode exception, NaN coordinates, daily-fetch
exception, empty frame, missing `tavg`/`prcp` column — resolves to the
monthly fallback, mirroring the source's early returns and its
`except Exception` handler. -/
def weatherTry (o : Oracles) (z : String) (month : Nat) (date_str : Option String) :
    (ℚ × ℚ) × Counts :=
  let ds := match date_str with
            | some d => if d = "" then o.today else d
            | none => o.today
  match parseDate ds with
  | none => (get_weather_fallback month, (0, 0))
  | some _ =>
    match o.geocode z with
    | .error _ => (get_weather_fallback month, (1, 0))
    | .ok none => (get_weather_fallback month, (1, 0))
    | .ok (some c) =>
      match o.daily c ds with
      | .error _ => (get_weather_fallback month, (1, 1))
      | .ok none => (get_weather_fallback month, (1, 1))
      | .ok (some row) =>
        match row.tavg?, row.prcp? with
        | some t, some p => ((t, p), (1, 1))
        | _, _ => (get_weather_fallback month, (1, 1))

/-- `_get_weather_data` — `features.py` lines 321-382: normalize the ZIP,
build the cache key, return a cache hit unchanged, otherwise resolve (live or
fallback) and cache the result before returning.  The function's return type
shows it never raises: all oracle exceptions are consumed by `weatherTry`. -/
def get_weather_data (o : Oracles) (cache : WeatherCache) (zipcode : String)
    (month : Nat) (date_str : Option String) : (ℚ × ℚ) × WeatherCache × Counts :=
  let z := normalize_zip zipcode
  let key : CacheKey :=
    (z, match date_str with
        | some d => if d = "" then Sum.inr month else Sum.inl d
        | none => Sum.inr month)
  match cacheLookup cache key with
  | some v => (v, cache, (0, 0))
  | none =>
    let (r, cnt) := weatherTry o z month date_str
    (r, (key, r) :: cache, cnt)

/-! ### Encoders — `features.py`, `load_encoders_and_models` and the
`_encode_*` helpers (lines 55-100, 420-552)

The pickled artifacts are opaque capabilities: each encoder is modelled as an
optional function whose `Except` result stands for a raised exception, plus
the data it exposes (`classes_` for the temperature label encoder). -/

structure TempEncoder where
  classes : List String
  transform : String → Except String ℚ

structure Encoders where
  season_label_encoder : Option (String → Except String ℚ)
  temp_label_encoder : Option TempEncoder
  freq_map : List (String × ℚ)
  loc_cluster_model : Option ((ℚ × ℚ) → Except String ℚ)
  zip_to_latlon : List (String × (ℚ × ℚ))

def assocLookup {α : Type} : List (String × α) → String → Option α
  | [], _ => none
  | (k, v) :: rest, key => if k = key then some v else assocLookup rest key

/-- `_categorize_temperature` — `features.py` lines 420-437. -/
def categorize_temperature (tavg : ℚ) : String :=
  if tavg ≤ 40 then "Cold"
  else if tavg ≤ 60 then "Cool"
  else if tavg ≤ 80 then "Warm"
  else "Hot"

/-- `_encode_season` — `features.py` lines 439-456: use the pickled encoder on
`str(season)` when present, fall back to `max(0, min(3, season - 1))` when it
is absent or raises (`Nat` subtraction agrees with the Python integer
expression under the outer `max 0`). -/
def encode_season (enc : Encoders) (season : Nat) : ℚ :=
  match enc.season_label_encoder with
  | some f =>
    match f (toString season) with
    | .ok v => v
    | .error _ => (min 3 (season - 1) : Nat)
  | none => (min 3 (season - 1) : Nat)

/-- Fallback mapping of `_encode_temp_category` — `features.py` lines 472-477. -/
def tempFallbackMapping (cat : String) : ℚ :=
  if cat = "Cold" then 0
  else if cat = "Cool" then 1
  else if cat = "Warm" then 2
  else if cat = "Hot" then 3
  else 1

/-- `_encode_temp_category` — `features.py` lines 458-496: encoder absent,
category not among `classes_`, or `transform` raising all degrade to the
fixed fallback mapping. -/
def encode_temp_category (enc : Encoders) (cat : String) : ℚ :=
  match enc.temp_label_encoder with
  | none => tempFallbackMapping cat
  | some te =>
    if cat ∈ te.classes then
      match te.transform cat with
      | .ok v => v
      | .error _ => tempFallbackMapping cat
    else tempFallbackMapping cat

/-- `_get_zcta5_frequency` — `features.py` lines 498-511: map lookup,
default 0 for unseen ZIPs. -/
def get_zcta5_frequency (enc : Encoders) (zipcode : String) : ℚ :=
  (assocLookup enc.freq_map (normalize_zip zipcode)).getD 0

/-- `_predict_location_cluster` — `features.py` lines 513-552: the pre-trained
model is used only when it exists and the ZIP has known coordinates; every
other path (including a raising model) yields the heuristic constant 1
(suburban), per `_classify_location_heuristic`. -/
def predict_location_cluster (enc : Encoders) (zipcode : String) : ℚ :=
  let z := normalize_zip zipcode
  match enc.loc_cluster_model, assocLookup enc.zip_to_latlon z with
  | some f, some coords =>
    match f coords with
    | .ok c => c
    | .error _ => 1
  | _, _ => 1

/-! ### FeatureComputer — `features.py`, `FeatureCalculator.compute_features`
(lines 213-315) and `get_feature_vector` (lines 554-592) -/

/-- A pandas cell: the record mixes echoed string inputs with numeric
features. -/
inductive PyVal where
  | s (v : String)
  | q (v : ℚ)
deriving DecidableEq, Repr

/-- A single DataFrame row: ordered association of column name to value. -/
abbrev Row := List (String × PyVal)

def rowLookup : Row → String → Option PyVal
  | [], _ => none
  | (k, v) :: rest, key => if k = key then some v else rowLookup rest key

/-- Python `float(cell)`: numeric cells convert directly; a string converts
only when it is a plain digit string (e.g. `"60601"`), otherwise `float`
raises `ValueError`. -/
def pyFloat : PyVal → Except String ℚ
  | .q v => .ok v
  | .s v =>
    if v.data ≠ [] ∧ v.data.all Char.isDigit then .ok (natOfDigits v.data : ℚ)
    else .error "could not convert string to float"

/-- The `# TEMP` override block — `features.py` lines 249-269: when the month
is November and the resolved pair equals the November fallback `(45, 0.9)`,
re-fetch live weather directly.  Inside its `try`, `tavg` is assigned before
`prcp`, so a `KeyError` on the `prcp` column leaves `tavg` already
overwritten — the partial update is modelled faithfully. -/
def novemberOverride (o : Oracles) (z date_str : String) (month : Nat)
    (tavg prcp : ℚ) : (ℚ × ℚ) × Counts :=
  if month = 11 ∧ tavg = 45 ∧ prcp = 9/10 then
    match parseDate date_str with
    | none => ((tavg, prcp), (0, 0))
    | some _ =>
      match o.geocode z with
      | .error _ => ((tavg, prcp), (1, 0))
      | .ok none => ((tavg, prcp), (1, 0))
      | .ok (some c) =>
        match o.daily c date_str with
        | .error _ => ((tavg, prcp), (1, 1))
        | .ok none => ((tavg, prcp), (1, 1))
        | .ok (some row) =>
          match row.tavg? with
          | none => ((tavg, prcp), (1, 1))
          | some t =>
            match row.prcp? with
            | none => ((t, prcp), (1, 1))
            | some p => ((t, p), (1, 1))
  else ((tavg, prcp), (0, 0))

/-- The body of `compute_features` after the datetime parse succeeded —
`features.py` lines 237-315.  Returns the built row, the updated weather
cache, and the total external-call counts (resolver plus override). -/
def computeRowAux (o : Oracles) (enc : Encoders) (cache : WeatherCache)
    (zipcode date_str time_str : String) (dt : PyDateTime) :
    Row × WeatherCache × Counts :=
  let z := normalize_zip zipcode
  let hour := dt.hour
  let day_of_week := dayOfWeekMon dt.year dt.month dt.day
  let month := dt.month
  let is_weekend : ℚ := if day_of_week = 5 ∨ day_of_week = 6 then 1 else 0
  let is_night : ℚ := if 18 ≤ hour ∨ hour ≤ 6 then 1 else 0
  let is_rush_hour : ℚ :=
    if (7 ≤ hour ∧ hour ≤ 9) ∨ (16 ≤ hour ∧ hour ≤ 18) then 1 else 0
  let is_business_hours : ℚ :=
    if (9 ≤ hour ∧ hour ≤ 17) ∧ day_of_week < 5 then 1 else 0
  let season := (month % 12 + 3) / 3
  let w := get_weather_data o cache z month (some date_str)
  let tavg0 := w.1.1
  let prcp0 := w.1.2
  let cache1 := w.2.1
  let is_rainy : ℚ := if 0 < prcp0 then 1 else 0
  let ov := novemberOverride o z date_str month tavg0 prcp0
  let tavg := ov.1.1
  let prcp := ov.1.2
  let season_encoded := encode_season enc season
  let temp_cat := categorize_temperature tavg
  let temp_category_encoded := encode_temp_category enc temp_cat
  let zcta5_freq_encoded := get_zcta5_frequency enc z
  let loc_cluster := predict_location_cluster enc z
  let row : Row :=
    [("date", .s date_str), ("time", .s time_str), ("zip_code", .s z),
     ("tavg", .q tavg), ("prcp", .q prcp),
     ("hour", .q hour), ("day_of_week", .q day_of_week), ("month", .q month),
     ("is_weekend", .q is_weekend), ("is_night", .q is_night),
     ("is_rush_hour", .q is_rush_hour), ("is_business_hours", .q is_business_hours),
     ("ZCTA5_freq_encoded", .q zcta5_freq_encoded),
     ("season_encoded", .q season_encoded),
     ("temp_category_encoded", .q temp_category_encoded),
     ("is_rainy", .q is_rainy), ("loc_cluster", .q loc_cluster)]
  (row, cache1, (w.2.2.1 + ov.2.1, w.2.2.2 + ov.2.2))

/-- `compute_features` — `features.py` lines 213-315: normalize the ZIP, parse
`"{date_str} {time_str}"` (raising `ValueError("Invalid datetime: ...")` on
failure), then build the single-row record. -/
def compute_features (o : Oracles) (enc : Encoders) (cache : WeatherCache)
    (zipcode date_str time_str : String) :
    Except String (Row × WeatherCache × Counts) :=
  match parseDateTime (date_str ++ " " ++ time_str) with
  | none => .error "Invalid datetime"
  | some dt => .ok (computeRowAux o enc cache zipcode date_str time_str dt)

/-- `feature_order` — `features.py` lines 564-579. -/
def feature_order : List String :=
  ["tavg", "prcp", "hour", "day_of_week", "month", "is_weekend", "is_night",
   "is_rush_hour", "is_business_hours", "ZCTA5_freq_encoded", "season_encoded",
   "temp_category_encoded", "is_rainy", "loc_cluster"]

/-- The loop of `get_feature_vector`: for each name in order, a missing column
raises `ValueError("Missing feature: <name>")`, then the cell is converted
with `float`. -/
def gatherFeatures (row : Row) : List String → Except String (List ℚ)
  | [] => .ok []
  | f :: rest =>
    match rowLookup row f with
    | none => .error ("Missing feature: " ++ f)
    | some v =>
      match pyFloat v with
      | .error e => .error e
      | .ok x =>
        match gatherFeatures row rest with
        | .error e => .error e
        | .ok xs => .ok (x :: xs)

/-- `get_feature_vector` — `features.py` lines 554-592: reject an empty frame,
then serialize the first row in the order of `feature_order`. -/
def get_feature_vector (df : List Row) : Except String (List ℚ) :=
  match df with
  | [] => .error "Empty DataFrame"
  | row :: _ => gatherFeatures row feature_order

/-! ### EnsembleAggregator and ConfidenceClassifier — `app.py`, `predict`
(lines 55-192)

An estimator is an opaque capability: `hasPredict` models
`hasattr(m, "predict")`; `run` models `predict([feature_vector])` together
with the element extraction and `float` conversion, an `Except` value standing
for any exception raised along the way. -/

structure Estimator where
  hasPredict : Bool
  run : List ℚ → Except String ℚ

/-- `joblib.load` yields either a single estimator or a dict of named
estimators (`isinstance(model, dict)` — `app.py` line 114). -/
inductive ModelHandle where
  | single (e : Estimator)
  | ensemble (ms : List (String × Estimator))

/-- The ensemble loop — `app.py` lines 115-126: collect successful predictions
in iteration order and count the skipped estimators (no `predict` attribute,
or an invocation that raised; both are logged). -/
def ensembleLoop (fv : List ℚ) : List (String × Estimator) → List ℚ × Nat
  | [] => ([], 0)
  | (_, m) :: rest =>
    let r := ensembleLoop fv rest
    if m.hasPredict then
      match m.run fv with
      | .ok v => (v :: r.1, r.2)
      | .error _ => (r.1, r.2 + 1)
    else (r.1, r.2 + 1)

/-- Failure modes of the aggregation `try` block, `app.py` lines 112-134:
`exhausted` is the `RuntimeError("No usable sub-models ...")` raised when no
estimator produced a value; `other` covers any other exception (e.g. a single
estimator without `predict`, or a raising single estimator). -/
inductive PredFailure where
  | exhausted
  | other (msg : String)
deriving DecidableEq, Repr

/-- Aggregation — `app.py` lines 112-134: a dict of estimators is averaged
over the successful ones (`sum(preds) / len(preds)`), an empty success list
raises; a single estimator's value is taken directly, its exceptions
propagate. -/
def aggregate (m : ModelHandle) (fv : List ℚ) : Except PredFailure ℚ :=
  match m with
  | .ensemble ms =>
    let r := ensembleLoop fv ms
    if r.1 = [] then .error .exhausted
    else .ok (r.1.sum / (r.1.length : ℚ))
  | .single e =>
    if e.hasPredict then
      match e.run fv with
      | .ok v => .ok v
      | .error e => .error (.other e)
    else .error (.other "object has no attribute predict")

/-- The `prediction` dict — `app.py` lines 97-107 (defaults) and 136-161. -/
structure Prediction where
  crime_rate : ℚ
  crime_category : String
  confidence : ℚ
  error : Option String
  raw_output : Option ℚ
  is_good_prediction : Bool
  has_enough_history : Bool
  message : String
deriving Repr

/-- The default `prediction` dict — `app.py` lines 97-107. -/
def defaultPrediction : Prediction :=
  { crime_rate := 0
    crime_category := "Low"
    confidence := 0
    error := none
    raw_output := none
    is_good_prediction := false
    has_enough_history := true
    message := "" }

/-- `app.py` lines 109-170: no loaded model sets only the error field; an
aggregation exception (including the exhausted-ensemble `RuntimeError`) is
caught and reported as `"Model prediction failed"`; otherwise the rate,
confidence `max(p, 1-p)`, reliability threshold 0.7, message, and the
Low/Medium/High bucketing at 0.33 and 0.66 are filled in.
`float(raw_output or 0.0)` is Python truthiness: it yields `0.0` when the raw
output is `0.0`, i.e. the same value. -/
def buildPrediction (model : Option ModelHandle) (fv : List ℚ) : Prediction :=
  match model with
  | none => { defaultPrediction with error := some "Model for city 'seattle' not loaded" }
  | some m =>
    match aggregate m fv with
    | .error _ => { defaultPrediction with error := some "Model prediction failed" }
    | .ok raw =>
      let rate : ℚ := if raw = 0 then 0 else raw
      let confidence := max rate (1 - rate)
      let good := decide (7/10 ≤ confidence)
      let message :=
        if good then
          if 1/2 ≤ rate then
            "Model is confident: higher risk period based on historical data."
          else
            "Model is confident: lower risk period based on historical data."
        else
          "Model is uncertain here; not enough historical data for a strong prediction."
      let category :=
        if rate < 33/100 then "Low"
        else if rate < 66/100 then "Medium"
        else "High"
      { crime_rate := rate
        crime_category := category
        confidence := confidence
        error := none
        raw_output := some raw
        is_good_prediction := good
        has_enough_history := good
        message := message }

/-- The success payload of `/api/predict` — `app.py` lines 172-188. -/
structure PredictResponse where
  success : Bool
  features : Row
  feature_vector : List ℚ
  prediction : Prediction

/-- HTTP outcome of `/api/predict`: 400 on missing/falsy fields, 500 when an
exception escapes to the outer handler (line 190), 200 otherwise. -/
inductive HttpResult where
  | badRequest
  | serverError (msg : String)
  | ok (resp : PredictResponse)

/-- The `/api/predict` endpoint — `app.py` lines 55-192.  `model` is the
outcome of `load_city_model "seattle"` (`none` when the file is absent or
`joblib.load` raised).  Field validation uses Python truthiness
(`not (date_str and time_str and zipcode)`), so an absent or empty field is a
400.  A `compute_features` or `get_feature_vector` exception reaches the outer
handler as a 500.  The response is a 200 with `success: true` regardless of
the prediction outcome. -/
def predictEndpoint (o : Oracles) (enc : Encoders) (cache : WeatherCache)
    (model : Option ModelHandle) (date? time? zip? : Option String) : HttpResult :=
  match date?, time?, zip? with
  | some d, some t, some z =>
    if d = "" ∨ t = "" ∨ z = "" then .badRequest
    else
      match compute_features o enc cache z d t with
      | .error msg => .serverError msg
      | .ok rcc =>
        match get_feature_vector [rcc.1] with
        | .error msg => .serverError msg
        | .ok fv =>
          .ok { success := true
                features := rcc.1
                feature_vector := fv
                prediction := buildPrediction model fv }
  | _, _, _ => .badRequest

/-! ## Theorems for the claims -/

/-- The risk bucket produced for a single estimator returning `v`. -/
lemma crime_category_single (v : ℚ) :
    (buildPrediction (some (.single ⟨true, fun _ => .ok v⟩)) []).crime_category =
      (if v < 33/100 then "Low" else if v < 66/100 then "Medium" else "High") := by
  by_cases h : v = 0
  · subst h; norm_num [buildPrediction, aggregate]
  · simp [buildPrediction, aggregate, h]

/-- C2 counterexample: at `p = 0.66` the code's bucketing (`app.py` lines
155-161) lands in `High`, not in `Medium` as the claim states — `rate < 0.66`
is false at `rate = 0.66`. -/
theorem c2_boundary_counterexample :
    (buildPrediction (some (.single ⟨true, fun _ => .ok (66/100)⟩)) []).crime_category = "High" ∧
    (buildPrediction (some (.single ⟨true, fun _ => .ok (66/100)⟩)) []).crime_category ≠ "Medium" := by
  have h : (buildPrediction (some (.single ⟨true, fun _ => .ok (66/100)⟩)) []).crime_category
      = "High" := by
    rw [crime_category_single]; norm_num
  exact ⟨h, by rw [h]; decide⟩

/-- C2 (amended): at the risk-category boundaries of `app.py` lines 155-161,
`p = 0.33` yields `Medium`, `p = 0.66` yields `High`, `p = 0.329999` yields
`Low`, and `p = 0.660001` yields `High`. -/
theorem c2_risk_category_boundaries :
    (buildPrediction (some (.single ⟨true, fun _ => .ok (33/100)⟩)) []).crime_category = "Medium" ∧
    (buildPrediction (some (.single ⟨true, fun _ => .ok (66/100)⟩)) []).crime_category = "High" ∧
    (buildPrediction (some (.single ⟨true, fun _ => .ok (329999/1000000)⟩)) []).crime_category = "Low" ∧
    (buildPrediction (some (.single ⟨true, fun _ => .ok (660001/1000000)⟩)) []).crime_category = "High" := by
  refine ⟨?_, ?_, ?_, ?_⟩ <;> rw [crime_category_single] <;> norm_num

/-- C3 counterexample: when the model is not loaded, the response's confidence
is the default `0.0` (`app.py` lines 97-110), which does not lie in
`[0.5, 1]`. -/
theorem c3_confidence_counterexample :
    (buildPrediction none []).confidence = 0 ∧
    ¬ ((1 : ℚ)/2 ≤ (buildPrediction none []).confidence) := by
  refine ⟨rfl, ?_⟩
  norm_num [buildPrediction, defaultPrediction]

/-- C3 (amended): when aggregation succeeds with a probability `p ∈ [0, 1]`,
the confidence equals `max(p, 1 − p)` and lies in `[0.5, 1]`; when the model
is not loaded, or aggregation fails, the confidence is the default `0.0`. -/
theorem c3_confidence_range :
    (∀ (m : ModelHandle) (fv : List ℚ) (p : ℚ), aggregate m fv = .ok p →
        0 ≤ p → p ≤ 1 →
        (buildPrediction (some m) fv).confidence = max p (1 - p) ∧
        1/2 ≤ (buildPrediction (some m) fv).confidence ∧
        (buildPrediction (some m) fv).confidence ≤ 1) ∧
    (∀ fv, (buildPrediction none fv).confidence = 0) ∧
    (∀ (m : ModelHandle) (fv : List ℚ) (e : PredFailure), aggregate m fv = .error e →
        (buildPrediction (some m) fv).confidence = 0) := by
  refine ⟨?_, fun _ => rfl, ?_⟩
  · intro m fv p hagg hp0 hp1
    have hconf : (buildPrediction (some m) fv).confidence = max p (1 - p) := by
      simp only [buildPrediction, hagg]
      by_cases h0 : p = 0
      · subst h0; norm_num
      · simp [h0]
    refine ⟨hconf, ?_, ?_⟩
    · rw [hconf]
      rcases le_total p (1/2) with h | h
      · exact le_max_of_le_right (by linarith)
      · exact le_max_of_le_left h
    · rw [hconf]
      exact max_le hp1 (by linarith)
  · intro m fv e hagg
    simp [buildPrediction, hagg, defaultPrediction]

/-- Witness for the amended C3 at a single estimator returning `p = 0.3` and
at a raising single estimator. -/
theorem c3_confidence_range_witness :
    ((buildPrediction (some (.single ⟨true, fun _ => .ok (3/10)⟩)) []).confidence
        = max (3/10) (1 - 3/10) ∧
      1/2 ≤ (buildPrediction (some (.single ⟨true, fun _ => .ok (3/10)⟩)) []).confidence ∧
      (buildPrediction (some (.single ⟨true, fun _ => .ok (3/10)⟩)) []).confidence ≤ 1) ∧
    (buildPrediction none []).confidence = 0 ∧
    (buildPrediction (some (.single ⟨true, fun _ => .error "boom"⟩)) []).confidence = 0 := by
  refine ⟨c3_confidence_range.1 _ [] (3/10) rfl (by norm_num) (by norm_num),
    c3_confidence_range.2.1 [],
    c3_confidence_range.2.2 _ [] (.other "boom") rfl⟩

/-- C5: every estimator of the named mapping is processed — the successful
values (in iteration order) are exactly the `filterMap` of the estimators that
have `predict` and do not raise, successes and recorded skips partition the
mapping, and when at least one value was produced the aggregate is the
arithmetic mean of the successes (`app.py` lines 114-131); concretely, three
estimators returning {0.2, failure, 0.6} yield 0.4 with one skip recorded. -/
theorem c5_ensemble_mean_of_successes (fv : List ℚ) (ms : List (String × Estimator)) :
    (ensembleLoop fv ms).1 =
      ms.filterMap (fun p => if p.2.hasPredict then (p.2.run fv).toOption else none) ∧
    (ensembleLoop fv ms).1.length + (ensembleLoop fv ms).2 = ms.length ∧
    ((ensembleLoop fv ms).1 ≠ [] →
      aggregate (.ensemble ms) fv =
        .ok ((ensembleLoop fv ms).1.sum / ((ensembleLoop fv ms).1.length : ℚ))) := by
  refine ⟨?_, ?_, ?_⟩
  · induction ms with
    | nil => rfl
    | cons hd tl ih =>
      simp only [ensembleLoop, List.filterMap_cons]
      by_cases h : hd.2.hasPredict
      · cases hrun : hd.2.run fv with
        | ok v => simp [h, hrun, ih, Except.toOption]
        | error e => simp [h, hrun, ih, Except.toOption]
      · simp [h, ih]
  · induction ms with
    | nil => rfl
    | cons hd tl ih =>
      simp only [ensembleLoop]
      by_cases h : hd.2.hasPredict
      · cases hrun : hd.2.run fv with
        | ok v => simp [h, hrun, List.length_cons]; omega
        | error e => simp [h, hrun]; omega
      · simp [h]; omega
  · intro hne
    simp [aggregate, hne]

/-- Witness for C5 at the claim's example: estimators returning
{0.2, failure, 0.6} yield successes `[0.2, 0.6]`, one recorded skip, and
aggregated probability `0.4`. -/
theorem c5_ensemble_mean_of_successes_witness :
    (ensembleLoop [] [("a", ⟨true, fun _ => .ok (2/10)⟩), ("b", ⟨true, fun _ => .error "boom"⟩),
        ("c", ⟨true, fun _ => .ok (6/10)⟩)]).1 = [2/10, 6/10] ∧
    (ensembleLoop [] [("a", ⟨true, fun _ => .ok (2/10)⟩), ("b", ⟨true, fun _ => .error "boom"⟩),
        ("c", ⟨true, fun _ => .ok (6/10)⟩)]).2 = 1 ∧
    aggregate (.ensemble [("a", ⟨true, fun _ => .ok (2/10)⟩), ("b", ⟨true, fun _ => .error "boom"⟩),
        ("c", ⟨true, fun _ => .ok (6/10)⟩)]) [] = .ok (4/10) := by
  have h := c5_ensemble_mean_of_successes []
    [("a", ⟨true, fun _ => .ok (2/10)⟩), ("b", ⟨true, fun _ => .error "boom"⟩),
     ("c", ⟨true, fun _ => .ok (6/10)⟩)]
  refine ⟨by simp [ensembleLoop], by simp [ensembleLoop], ?_⟩
  have h3 := h.2.2 (by simp [ensembleLoop])
  rw [h3]
  norm_num [ensembleLoop]

/-- The three "no live weather" situations of the claim (`features.py` lines
341-367): NaN coordinates from geocoding, an empty Meteostat frame, or a
required column absent from the returned row. -/
def NoLiveWeather (o : Oracles) (z ds : String) : Prop :=
  o.geocode z = .ok none ∨
  (∃ c, o.geocode z = .ok (some c) ∧
    (o.daily c ds = .ok none ∨
     ∃ row, o.daily c ds = .ok (some row) ∧ (row.tavg? = none ∨ row.prcp? = none)))

/-- C4: for any month `m` in 1–12, when no live weather source is available
the resolver returns exactly the static monthly fallback tuple for `m`
(an entry of `WEATHER_FALLBACK`, e.g. month 6 gives `(80, 1.4)`), and a
second call with the same `(normalized zip, date)` cache key returns the
cached value with zero further geocode or daily-weather invocations and an
unchanged cache. -/
theorem c4_fallback_months_and_cache (o : Oracles) (z d : String) (m y mo dy : Nat)
    (hm1 : 1 ≤ m) (hm2 : m ≤ 12)
    (hd : d ≠ "") (hp : parseDate d = some (y, mo, dy))
    (hnl : NoLiveWeather o (normalize_zip z) d) :
    (get_weather_data o [] z m (some d)).1 = get_weather_fallback m ∧
    fallbackLookup WEATHER_FALLBACK m = some (get_weather_fallback m) ∧
    (m = 6 → (get_weather_data o [] z m (some d)).1 = (80, 14/10)) ∧
    get_weather_data o (get_weather_data o [] z m (some d)).2.1 z m (some d) =
      ((get_weather_data o [] z m (some d)).1,
       (get_weather_data o [] z m (some d)).2.1, (0, 0)) := by
  have hfb : (get_weather_data o [] z m (some d)).1 = get_weather_fallback m ∧
      (get_weather_data o [] z m (some d)).2.1 =
        ((normalize_zip z, Sum.inl d), get_weather_fallback m) :: [] := by
    rcases hnl with hgeo | ⟨c, hgeo, hdy⟩
    · constructor <;> simp [get_weather_data, weatherTry, cacheLookup, hd, hp, hgeo]
    · rcases hdy with hdy | ⟨row, hdy, hmiss⟩
      · constructor <;> simp [get_weather_data, weatherTry, cacheLookup, hd, hp, hgeo, hdy]
      · rcases hmiss with hmiss | hmiss
        · constructor <;>
            simp [get_weather_data, weatherTry, cacheLookup, hd, hp, hgeo, hdy, hmiss]
        · rcases hrow : row.tavg? with _ | t <;> constructor <;>
            simp [get_weather_data, weatherTry, cacheLookup, hd, hp, hgeo, hdy, hmiss, hrow]
  refine ⟨hfb.1, ?_, ?_, ?_⟩
  · interval_cases m <;> rfl
  · intro h6; rw [hfb.1, h6]; rfl
  · rw [hfb.2, hfb.1]
    simp [get_weather_data, cacheLookup, hd]

/-- Witness for C4: month 6, a geocoder that knows no coordinates — the first
call yields the June fallback `(80, 1.4)` and the second call is served from
the cache with zero external invocations. -/
theorem c4_fallback_months_and_cache_witness :
    (get_weather_data ⟨fun _ => .ok none, fun _ _ => .ok none, "2025-01-01"⟩
        [] "60601" 6 (some "2025-06-15")).1 = get_weather_fallback 6 ∧
    fallbackLookup WEATHER_FALLBACK 6 = some (get_weather_fallback 6) ∧
    (6 = 6 → (get_weather_data ⟨fun _ => .ok none, fun _ _ => .ok none, "2025-01-01"⟩
        [] "60601" 6 (some "2025-06-15")).1 = (80, 14/10)) ∧
    get_weather_data ⟨fun _ => .ok none, fun _ _ => .ok none, "2025-01-01"⟩
        (get_weather_data ⟨fun _ => .ok none, fun _ _ => .ok none, "2025-01-01"⟩
          [] "60601" 6 (some "2025-06-15")).2.1 "60601" 6 (some "2025-06-15") =
      ((get_weather_data ⟨fun _ => .ok none, fun _ _ => .ok none, "2025-01-01"⟩
          [] "60601" 6 (some "2025-06-15")).1,
       (get_weather_data ⟨fun _ => .ok none, fun _ _ => .ok none, "2025-01-01"⟩
          [] "60601" 6 (some "2025-06-15")).2.1, (0, 0)) :=
  c4_fallback_months_and_cache ⟨fun _ => .ok none, fun _ _ => .ok none, "2025-01-01"⟩
    "60601" "2025-06-15" 6 2025 6 15 (by decide) (by decide) (by decide) (by decide)
    (Or.inl rfl)

/-- An exception raised by the geocoding lookup, or by the daily-weather query
after successful geocoding (`features.py` lines 341, 355). -/
def WeatherRaises (o : Oracles) (z ds : String) : Prop :=
  (∃ e, o.geocode z = .error e) ∨
  (∃ c e, o.geocode z = .ok (some c) ∧ o.daily c ds = .error e)

/-- C9: the resolver never raises to its caller — its return type is a plain
value, because the whole live path sits inside `try/except` (`features.py`
lines 334-382); whenever the geocoding lookup or the daily-weather query
raises, the monthly fallback tuple is returned and cached under the computed
key. -/
theorem c9_exceptions_degrade_to_fallback (o : Oracles) (cache : WeatherCache)
    (z d : String) (m y mo dy : Nat)
    (hd : d ≠ "") (hp : parseDate d = some (y, mo, dy))
    (hmiss : cacheLookup cache (normalize_zip z, Sum.inl d) = none)
    (hex : WeatherRaises o (normalize_zip z) d) :
    (get_weather_data o cache z m (some d)).1 = get_weather_fallback m ∧
    (get_weather_data o cache z m (some d)).2.1 =
      ((normalize_zip z, Sum.inl d), get_weather_fallback m) :: cache := by
  rcases hex with ⟨e, hgeo⟩ | ⟨c, e, hgeo, hdy⟩
  · constructor <;> simp [get_weather_data, weatherTry, hd, hp, hgeo, hmiss]
  · constructor <;> simp [get_weather_data, weatherTry, hd, hp, hgeo, hdy, hmiss]

/-- Witness for C9: a geocoder raising `ConnectionError` — the resolver
returns the November fallback and caches it. -/
theorem c9_exceptions_degrade_to_fallback_witness :
    (get_weather_data ⟨fun _ => .error "ConnectionError", fun _ _ => .ok none, "2025-01-01"⟩
        [] "98144" 11 (some "2025-11-15")).1 = get_weather_fallback 11 ∧
    (get_weather_data ⟨fun _ => .error "ConnectionError", fun _ _ => .ok none, "2025-01-01"⟩
        [] "98144" 11 (some "2025-11-15")).2.1 =
      ((normalize_zip "98144", Sum.inl "2025-11-15"), get_weather_fallback 11) :: [] :=
  c9_exceptions_degrade_to_fallback
    ⟨fun _ => .error "ConnectionError", fun _ _ => .ok none, "2025-01-01"⟩ []
    "98144" "2025-11-15" 11 2025 11 15 (by decide) (by decide) rfl
    (Or.inl ⟨"ConnectionError", rfl⟩)

/-! ### C7 — ZipNormalizer -/

def digitChars : List Char := ['0', '1', '2', '3', '4', '5', '6', '7', '8', '9']

lemma digit_not_space {c : Char} (h : c ∈ digitChars) : isPySpace c = false := by
  fin_cases h <;> rfl

lemma digit_ne_dot {c : Char} (h : c ∈ digitChars) : c ≠ '.' := by
  fin_cases h <;> decide

lemma digit_not_sign {c : Char} (h : c ∈ digitChars) : ¬(c = '+' ∨ c = '-') := by
  fin_cases h <;> decide

lemma dropWhile_eq_self_of_none {p : Char → Bool} :
    ∀ {l : List Char}, (∀ c ∈ l, p c = false) → l.dropWhile p = l
  | [], _ => rfl
  | c :: rest, h => by
    have hc := h c (List.mem_cons_self c rest)
    simp [List.dropWhile, hc]

lemma pyStrip_eq_self {l : List Char} (h : ∀ c ∈ l, isPySpace c = false) :
    pyStrip l = l := by
  unfold pyStrip
  rw [dropWhile_eq_self_of_none h,
      dropWhile_eq_self_of_none (fun c hc => h c (List.mem_reverse.mp hc)),
      List.reverse_reverse]

lemma splitDotHead_eq_self {l : List Char} (h : ∀ c ∈ l, c ≠ '.') :
    splitDotHead l = l := by
  induction l with
  | nil => rfl
  | cons c rest ih =>
    have hc := h c (List.mem_cons_self c rest)
    simp only [splitDotHead] at ih ⊢
    simp [List.takeWhile_cons, hc]
    exact fun x hx => h x (List.mem_cons_of_mem c hx)

lemma splitDotHead_append_dot {l r : List Char} (h : ∀ c ∈ l, c ≠ '.') :
    splitDotHead (l ++ '.' :: r) = l := by
  induction l with
  | nil => simp [splitDotHead, List.takeWhile_cons]
  | cons c rest ih =>
    have hc := h c (List.mem_cons_self c rest)
    have hrest := ih (fun x hx => h x (List.mem_cons_of_mem c hx))
    simp only [splitDotHead] at hrest ⊢
    simp only [List.cons_append, List.takeWhile_cons]
    simp only [hc, decide_not, ne_eq] at hrest ⊢
    simp [hc, hrest]

lemma zfill_of_digits {l : List Char} (h : ∀ c ∈ l, c ∈ digitChars) :
    zfill l 5 = List.replicate (5 - l.length) '0' ++ l := by
  cases l with
  | nil => rfl
  | cons c rest =>
    have := digit_not_sign (h c (List.mem_cons_self c rest))
    simp [zfill, this]

/-- C7: every digit-string representation of a postal code of at most five
digits — the `str()` image of an `int`, of a `float` with a trailing `".0"`,
or the string itself, with dropped leading zeros allowed — normalizes to the
5-character zero-left-padded string, with no failure path; in particular the
representations `"60601"` (also `str(60601)`) and `"60601.0"` both yield
`"60601"`, and `"601"` (a leading-zero code mangled by numeric formatting)
yields `"00601"`. -/
theorem c7_zip_normalizer (ds : List Char)
    (hdig : ∀ c ∈ ds, c ∈ digitChars) (hlen : ds.length ≤ 5) :
    (normalize_zip ⟨ds⟩).data = List.replicate (5 - ds.length) '0' ++ ds ∧
    (normalize_zip ⟨ds⟩).length = 5 ∧
    normalize_zip ⟨ds ++ ['.', '0']⟩ = normalize_zip ⟨ds⟩ ∧
    normalize_zip "60601" = "60601" ∧
    normalize_zip "60601.0" = "60601" ∧
    normalize_zip "601" = "00601" := by
  have hnodot : ∀ c ∈ ds, c ≠ '.' := fun c hc => digit_ne_dot (hdig c hc)
  have hmain : (normalize_zip ⟨ds⟩).data = List.replicate (5 - ds.length) '0' ++ ds := by
    show (⟨zfill _ 5⟩ : String).data = _
    rw [pyStrip_eq_self (fun c hc => digit_not_space (hdig c hc))]
    have hcon : ds.contains '.' = false := by
      show ds.elem '.' = false
      rw [List.elem_eq_mem, decide_eq_false_iff_not]
      exact fun hmem => hnodot '.' hmem rfl
    rw [if_neg (by rw [hcon]; exact Bool.false_ne_true)]
    exact zfill_of_digits hdig
  refine ⟨hmain, ?_, ?_, by decide, by decide, by decide⟩
  · show (normalize_zip ⟨ds⟩).data.length = 5
    rw [hmain]
    simp only [List.length_append, List.length_replicate]
    omega
  · show (⟨zfill _ 5⟩ : String) = (⟨zfill _ 5⟩ : String)
    have hns : ∀ c ∈ ds ++ ['.', '0'], isPySpace c = false := by
      intro c hc
      rcases List.mem_append.mp hc with hc | hc
      · exact digit_not_space (hdig c hc)
      · fin_cases hc <;> rfl
    rw [pyStrip_eq_self hns,
        pyStrip_eq_self (fun c hc => digit_not_space (hdig c hc))]
    have hcon1 : (ds ++ ['.', '0']).contains '.' = true := by
      simp [List.contains, List.elem_eq_mem]
    have hcon : ds.contains '.' = false := by
      show ds.elem '.' = false
      rw [List.elem_eq_mem, decide_eq_false_iff_not]
      exact fun hmem => hnodot '.' hmem rfl
    rw [if_pos hcon1, if_neg (by rw [hcon]; exact Bool.false_ne_true)]
    have : splitDotHead (ds ++ ['.', '0']) = ds := splitDotHead_append_dot hnodot
    rw [this]

/-- Witness for C7 at the three-digit code `"601"`. -/
theorem c7_zip_normalizer_witness :
    ((∀ c ∈ ('6' :: '0' :: '1' :: []), c ∈ digitChars) ∧
      ('6' :: '0' :: '1' :: []).length ≤ 5) ∧
    (normalize_zip ⟨'6' :: '0' :: '1' :: []⟩).data =
      List.replicate (5 - ('6' :: '0' :: '1' :: []).length) '0' ++ ('6' :: '0' :: '1' :: []) ∧
    (normalize_zip ⟨'6' :: '0' :: '1' :: []⟩).length = 5 ∧
    normalize_zip ⟨('6' :: '0' :: '1' :: []) ++ ['.', '0']⟩ = normalize_zip ⟨'6' :: '0' :: '1' :: []⟩ := by
  have h := c7_zip_normalizer ('6' :: '0' :: '1' :: []) (by decide) (by decide)
  exact ⟨⟨by decide, by decide⟩, h.1, h.2.1, h.2.2.1⟩

/-! ### C8 — feature-vector serialization -/

/-- A single-row record shaped like the one `compute_features` builds: the
three echoed inputs plus the 14 named numeric features. -/
def fullRecord (d t z : String)
    (vTavg vPrcp vHour vDow vMonth vWknd vNight vRush vBus vFreq vSeason
     vTempCat vRainy vLoc : ℚ) : Row :=
  [("date", .s d), ("time", .s t), ("zip_code", .s z),
   ("tavg", .q vTavg), ("prcp", .q vPrcp), ("hour", .q vHour),
   ("day_of_week", .q vDow), ("month", .q vMonth), ("is_weekend", .q vWknd),
   ("is_night", .q vNight), ("is_rush_hour", .q vRush),
   ("is_business_hours", .q vBus), ("ZCTA5_freq_encoded", .q vFreq),
   ("season_encoded", .q vSeason), ("temp_category_encoded", .q vTempCat),
   ("is_rainy", .q vRainy), ("loc_cluster", .q vLoc)]

/-- Remove one named column from a record. -/
def dropField (row : Row) (name : String) : Row :=
  row.filter (fun kv => kv.1 ≠ name)

/-- C8: on a single-row record with all 14 named fields, `get_feature_vector`
returns their values exactly in the order
`tavg, prcp, hour, day_of_week, month, is_weekend, is_night, is_rush_hour,
is_business_hours, ZCTA5_freq_encoded, season_encoded, temp_category_encoded,
is_rainy, loc_cluster`; with any one of the 14 fields removed it fails with
`"Missing feature: <name>"` naming the absent field (`features.py` lines
554-592). -/
theorem c8_feature_vector_order_and_missing (d t z : String)
    (vTavg vPrcp vHour vDow vMonth vWknd vNight vRush vBus vFreq vSeason
     vTempCat vRainy vLoc : ℚ) :
    get_feature_vector [fullRecord d t z vTavg vPrcp vHour vDow vMonth vWknd
        vNight vRush vBus vFreq vSeason vTempCat vRainy vLoc] =
      .ok [vTavg, vPrcp, vHour, vDow, vMonth, vWknd, vNight, vRush, vBus,
           vFreq, vSeason, vTempCat, vRainy, vLoc] ∧
    ∀ i : Fin 14,
      get_feature_vector [dropField (fullRecord d t z vTavg vPrcp vHour vDow
          vMonth vWknd vNight vRush vBus vFreq vSeason vTempCat vRainy vLoc)
          (feature_order.getD i.1 "")] =
        .error ("Missing feature: " ++ feature_order.getD i.1 "") := by
  constructor
  · rfl
  · intro i
    fin_cases i <;> rfl

/-- Witness for C8 at the concrete record of the end-to-end example, with the
`tavg` column dropped in the failing half. -/
theorem c8_feature_vector_order_and_missing_witness :
    get_feature_vector [fullRecord "2025-06-15" "14:30:00" "60601"
        80 (14/10) 14 6 6 1 0 0 0 0 2 2 1 1] =
      .ok [80, 14/10, 14, 6, 6, 1, 0, 0, 0, 0, 2, 2, 1, 1] ∧
    get_feature_vector [dropField (fullRecord "2025-06-15" "14:30:00" "60601"
        80 (14/10) 14 6 6 1 0 0 0 0 2 2 1 1) (feature_order.getD (0 : Fin 14).1 "")] =
      .error ("Missing feature: " ++ feature_order.getD (0 : Fin 14).1 "") :=
  ⟨(c8_feature_vector_order_and_missing "2025-06-15" "14:30:00" "60601"
      80 (14/10) 14 6 6 1 0 0 0 0 2 2 1 1).1,
   (c8_feature_vector_order_and_missing "2025-06-15" "14:30:00" "60601"
      80 (14/10) 14 6 6 1 0 0 0 0 2 2 1 1).2 (0 : Fin 14)⟩

/-! ### C6 and C10 — endpoint behaviour under prediction failure -/

/-- The record built by `compute_features` always serializes: it contains all
14 named features, so `get_feature_vector` returns a 14-entry vector. -/
lemma get_feature_vector_computeRow (o : Oracles) (enc : Encoders)
    (cache : WeatherCache) (z d t : String) (dt : PyDateTime) :
    ∃ v : List ℚ, get_feature_vector [(computeRowAux o enc cache z d t dt).1] = .ok v ∧
      v.length = 14 :=
  ⟨_, rfl, rfl⟩

/-- When every estimator of the mapping lacks `predict` or raises, the loop
collects no prediction. -/
lemma ensembleLoop_all_fail (fv : List ℚ) :
    ∀ {ms : List (String × Estimator)},
      (∀ p ∈ ms, p.2.hasPredict = false ∨ ∀ v, ∃ e, p.2.run v = .error e) →
      (ensembleLoop fv ms).1 = []
  | [], _ => rfl
  | p :: rest, h => by
    have hrest := ensembleLoop_all_fail fv (fun q hq => h q (List.mem_cons_of_mem p hq))
    rcases h p (List.mem_cons_self p rest) with hp | hp
    · simp [ensembleLoop, hp, hrest]
    · obtain ⟨e, he⟩ := hp fv
      by_cases hhp : p.2.hasPredict
      · simp [ensembleLoop, hhp, he, hrest]
      · simp [ensembleLoop, hhp, hrest]

/-- An empty success list makes the aggregation raise the exhausted-ensemble
error (`RuntimeError`, `app.py` line 129). -/
lemma aggregate_exhausted {fv : List ℚ} {ms : List (String × Estimator)}
    (h : (ensembleLoop fv ms).1 = []) :
    aggregate (.ensemble ms) fv = .error .exhausted := by
  simp [aggregate, h]

/-- C6: when zero estimators of the mapping produce a value, the aggregation's
exhausted-ensemble error is surfaced only in the prediction's error field —
the HTTP response is still a 200 success that carries the computed features
and the 14-entry feature vector (`app.py` lines 128-131, 168-188). -/
theorem c6_exhausted_ensemble_preserves_response (o : Oracles) (enc : Encoders)
    (cache : WeatherCache) (d t z : String) (dt : PyDateTime)
    (ms : List (String × Estimator))
    (hd : d ≠ "") (ht : t ≠ "") (hz : z ≠ "")
    (hparse : parseDateTime (d ++ " " ++ t) = some dt)
    (hfail : ∀ p ∈ ms, p.2.hasPredict = false ∨ ∀ v, ∃ e, p.2.run v = .error e) :
    ∃ resp, predictEndpoint o enc cache (some (.ensemble ms)) (some d) (some t) (some z)
        = .ok resp ∧
      resp.success = true ∧
      resp.features = (computeRowAux o enc cache z d t dt).1 ∧
      resp.feature_vector.length = 14 ∧
      resp.prediction.error = some "Model prediction failed" ∧
      resp.prediction.raw_output = none := by
  obtain ⟨v, hv, hlen⟩ := get_feature_vector_computeRow o enc cache z d t dt
  have hagg := aggregate_exhausted ((ensembleLoop_all_fail v) hfail)
  have hpred : buildPrediction (some (.ensemble ms)) v =
      { defaultPrediction with error := some "Model prediction failed" } := by
    simp only [buildPrediction, hagg]
  have hcond : ¬(d = "" ∨ t = "" ∨ z = "") := by simp [hd, ht, hz]
  refine ⟨{ success := true
            features := (computeRowAux o enc cache z d t dt).1
            feature_vector := v
            prediction := { defaultPrediction with error := some "Model prediction failed" } },
          ?_, rfl, rfl, hlen, rfl, rfl⟩
  simp only [predictEndpoint, compute_features, hparse, if_neg hcond, hv, hpred]

/-- C10: when the city model is absent or failed to load (`load_city_model`
returned `None`, `app.py` lines 27-45), the endpoint still returns a success
response carrying the computed features and the ordered 14-entry feature
vector, with the prediction's error field set to the model-not-loaded message
and the defaults `crime_rate = 0.0`, category `Low`, `confidence = 0.0`,
`is_good_prediction = false` (`app.py` lines 97-110, 172-188). -/
theorem c10_missing_model_defaults (o : Oracles) (enc : Encoders)
    (cache : WeatherCache) (d t z : String) (dt : PyDateTime)
    (hd : d ≠ "") (ht : t ≠ "") (hz : z ≠ "")
    (hparse : parseDateTime (d ++ " " ++ t) = some dt) :
    ∃ resp, predictEndpoint o enc cache none (some d) (some t) (some z) = .ok resp ∧
      resp.success = true ∧
      resp.features = (computeRowAux o enc cache z d t dt).1 ∧
      resp.feature_vector.length = 14 ∧
      resp.prediction.error = some "Model for city 'seattle' not loaded" ∧
      resp.prediction.crime_rate = 0 ∧
      resp.prediction.crime_category = "Low" ∧
      resp.prediction.confidence = 0 ∧
      resp.prediction.is_good_prediction = false := by
  obtain ⟨v, hv, hlen⟩ := get_feature_vector_computeRow o enc cache z d t dt
  have hcond : ¬(d = "" ∨ t = "" ∨ z = "") := by simp [hd, ht, hz]
  refine ⟨{ success := true
            features := (computeRowAux o enc cache z d t dt).1
            feature_vector := v
            prediction := { defaultPrediction with
                            error := some "Model for city 'seattle' not loaded" } },
          ?_, rfl, rfl, hlen, rfl, rfl, rfl, rfl, rfl⟩
  simp only [predictEndpoint, compute_features, hparse, if_neg hcond, hv]
  rfl

/-- An oracle environment with no usable geocoder, for concrete witnesses. -/
def oracleOffline : Oracles :=
  ⟨fun _ => .ok none, fun _ _ => .ok none, "2025-01-01"⟩

/-- An encoder bundle with every pickled artifact absent, for concrete
witnesses (every encoder then takes its deterministic fallback). -/
def encodersAbsent : Encoders := ⟨none, none, [], none, []⟩

/-- Witness for C6: a mapping of one estimator without `predict` and one
raising estimator. -/
theorem c6_exhausted_ensemble_preserves_response_witness :
    ∃ resp, predictEndpoint oracleOffline encodersAbsent []
        (some (.ensemble [("gb", ⟨false, fun _ => .ok 0⟩),
                          ("rf", ⟨true, fun _ => .error "ValueError"⟩)]))
        (some "2025-06-15") (some "14:30:00") (some "60601") = .ok resp ∧
      resp.success = true ∧
      resp.features = (computeRowAux oracleOffline encodersAbsent [] "60601"
        "2025-06-15" "14:30:00" ⟨2025, 6, 15, 14, 30, 0⟩).1 ∧
      resp.feature_vector.length = 14 ∧
      resp.prediction.error = some "Model prediction failed" ∧
      resp.prediction.raw_output = none := by
  refine c6_exhausted_ensemble_preserves_response oracleOffline encodersAbsent []
    "2025-06-15" "14:30:00" "60601" ⟨2025, 6, 15, 14, 30, 0⟩
    [("gb", ⟨false, fun _ => .ok 0⟩), ("rf", ⟨true, fun _ => .error "ValueError"⟩)]
    (by decide) (by decide) (by decide) (by decide) ?_
  intro p hp
  fin_cases hp
  · exact Or.inl rfl
  · exact Or.inr (fun v => ⟨"ValueError", rfl⟩)

/-- Witness for C10 at the end-to-end query of the spec. -/
theorem c10_missing_model_defaults_witness :
    ∃ resp, predictEndpoint oracleOffline encodersAbsent [] none
        (some "2025-06-15") (some "14:30:00") (some "60601") = .ok resp ∧
      resp.success = true ∧
      resp.features = (computeRowAux oracleOffline encodersAbsent [] "60601"
        "2025-06-15" "14:30:00" ⟨2025, 6, 15, 14, 30, 0⟩).1 ∧
      resp.feature_vector.length = 14 ∧
      resp.prediction.error = some "Model for city 'seattle' not loaded" ∧
      resp.prediction.crime_rate = 0 ∧
      resp.prediction.crime_category = "Low" ∧
      resp.prediction.confidence = 0 ∧
      resp.prediction.is_good_prediction = false :=
  c10_missing_model_defaults oracleOffline encodersAbsent [] "2025-06-15"
    "14:30:00" "60601" ⟨2025, 6, 15, 14, 30, 0⟩
    (by decide) (by decide) (by decide) (by decide)

/-! ### C1 — the November special case in `compute_features`

`features.py` lines 249-269 contain a block marked `# TEMP` that re-fetches
live weather whenever the resolved pair equals the November fallback
`(45, 0.9)`.  The claim (and the spec's own §9 note) says feature computation
must contain no such value-specific special case.  The oracle below produces
a deterministic divergence: Meteostat returns a frame whose row has
`tavg = 50` but no `prcp` column, so the guarded resolver falls back to
`(45, 0.9)`, while the override block assigns `tavg := 50.0` and then raises
`KeyError` on `prcp`, leaving the record's pair at `(50, 0.9)` — and both the
geocoder and the weather provider are invoked a second time. -/

def oracleNovember : Oracles :=
  ⟨fun _ => .ok (some (47, -122)), fun _ _ => .ok (some ⟨some 50, none⟩), "2025-11-15"⟩

/-- C1 is violated by the code: for the query (ZIP 98144, 2025-11-15,
12:00:00) under `oracleNovember`, the documented resolver yields the November
fallback `(45, 0.9)`, but the FeatureRecord carries `(50, 0.9)` — a different
pair — and the external sources are each invoked twice (resolver plus the
special-case re-fetch) instead of once. -/
theorem c1_november_special_case_diverges :
    (get_weather_data oracleNovember [] "98144" 11 (some "2025-11-15")).1 = (45, 9/10) ∧
    (get_weather_data oracleNovember [] "98144" 11 (some "2025-11-15")).2.2 = (1, 1) ∧
    (compute_features oracleNovember encodersAbsent [] "98144" "2025-11-15" "12:00:00").toOption.map
        (fun rcc => (rowLookup rcc.1 "tavg", rowLookup rcc.1 "prcp")) =
      some (some (.q 50), some (.q (9/10))) ∧
    (compute_features oracleNovember encodersAbsent [] "98144" "2025-11-15" "12:00:00").toOption.map
        (fun rcc => rcc.2.2) = some (2, 2) ∧
    some (PyVal.q 50) ≠ some (PyVal.q 45) := by
  have hpd : parseDate "2025-11-15" = some (2025, 11, 15) := by decide
  have hne : ("2025-11-15" : String) ≠ "" := by decide
  have hzn : normalize_zip "98144" = "98144" := by decide
  have hfb : get_weather_fallback 11 = (45, 9/10) := by
    norm_num [get_weather_fallback, fallbackLookup, WEATHER_FALLBACK]
  have hw : get_weather_data oracleNovember [] "98144" 11 (some "2025-11-15") =
      ((45, 9/10), [(("98144", Sum.inl "2025-11-15"), (45, 9/10))], (1, 1)) := by
    simp only [get_weather_data, weatherTry, cacheLookup, oracleNovember, hpd, hfb,
      hzn, if_neg hne]
  have hdt : parseDateTime ("2025-11-15" ++ " " ++ "12:00:00") =
      some ⟨2025, 11, 15, 12, 0, 0⟩ := by decide
  have hov : novemberOverride oracleNovember "98144" "2025-11-15" 11
      45 (9/10) = ((50, 9/10), (1, 1)) := by
    rw [novemberOverride, if_pos (by norm_num)]
    simp only [oracleNovember, hpd]
  have hcf : compute_features oracleNovember encodersAbsent [] "98144" "2025-11-15"
      "12:00:00" = .ok (computeRowAux oracleNovember encodersAbsent [] "98144"
        "2025-11-15" "12:00:00" ⟨2025, 11, 15, 12, 0, 0⟩) := by
    simp only [compute_features, hdt]
  refine ⟨by rw [hw], by rw [hw], ?_, ?_, ?_⟩
  · rw [hcf]
    simp only [Except.toOption, Option.map]
    simp only [computeRowAux, rowLookup, hzn, hw, hov]
    simp
  · rw [hcf]
    simp only [Except.toOption, Option.map]
    simp only [computeRowAux, hzn, hw, hov]
  · intro h
    have h1 := Option.some.inj h
    have h2 := PyVal.q.inj h1
    norm_num at h2

end CrimePrediction
